import Mathlib

/-!
Verification of the CLI-backed provider execution subsystem of
lazygit-llm-commit-generator (lazygit_llm/error_classifier.py and
lazygit_llm/cli_providers/). Python strings are modelled as `List Char`;
byte sizes use the UTF-8 size of each character, matching
`str.encode(utf8)`. Each definition is a shallow embedding of the
correspondingly named Python function.
-/

namespace LazygitLLM

/-- Characters removed by Python `str.strip()` with no argument. -/
def pySpace (c : Char) : Bool :=
  c = ' ' || c = '\t' || c = '\n' || c = '\r' || c = Char.ofNat 11 || c = Char.ofNat 12

/-- Python `str.lstrip()`. -/
def pyLStrip (s : List Char) : List Char := s.dropWhile pySpace

/-- Python `str.rstrip()`. -/
def pyRStrip (s : List Char) : List Char := (s.reverse.dropWhile pySpace).reverse

/-- Python `str.strip()`. -/
def pyStrip (s : List Char) : List Char := pyRStrip (pyLStrip s)

/-- Python `str.lower()` (ASCII case folding; all relevant literals are ASCII). -/
def lowerStr (s : List Char) : List Char := s.map Char.toLower

/-- Python substring test `pat in s`. -/
def isSub (pat : List Char) : List Char → Bool
  | [] => pat.isEmpty
  | c :: rest => List.isPrefixOf pat (c :: rest) || isSub pat rest

/-- Python `str.split(chr(10))`: split on newline, keeping empty pieces. -/
def splitNl : List Char → List (List Char)
  | [] => [[]]
  | c :: rest =>
    if c = '\n' then [] :: splitNl rest
    else
      match splitNl rest with
      | [] => [[c]]
      | h :: t => (c :: h) :: t

/-- Python `chr(10).join(pieces)`. -/
def joinNl : List (List Char) → List Char
  | [] => []
  | [l] => l
  | l :: ls => l ++ '\n' :: joinNl ls

/-- UTF-8 byte length of a string, as computed by `len(s.encode(utf8))`. -/
def utf8Len (s : List Char) : Nat := (s.map Char.utf8Size).sum

/-- Longest prefix of the string whose UTF-8 encoding fits in `n` bytes.
This models `bytes[:n].decode(utf8, errors=ignore)` applied to the valid
UTF-8 encoding of the string: the byte slice ends in at most one damaged
(partially cut) character, which `ignore` drops. -/
def takeBytes (n : Nat) : List Char → List Char
  | [] => []
  | c :: cs => if c.utf8Size ≤ n then c :: takeBytes (n - c.utf8Size) cs else []

/-- Model of `os.path.basename`: the part of the path after the final slash. -/
def basename (p : List Char) : List Char :=
  (p.reverse.takeWhile (fun c => c ≠ '/')).reverse

/-!
## error_classifier.py — GeminiErrorClassifier
-/

/-- The `ErrorType` enum from error_classifier.py. -/
inductive ErrorType where
  | quotaExceeded
  | authenticationError
  | networkError
  | timeoutError
  | rateLimit
  | unknownError
  | successWithWarning
deriving DecidableEq, Repr

/-- The `ErrorAnalysisResult` dataclass (the `technical_details` dictionary, a
log-only payload, is not modelled). -/
structure ErrorAnalysisResult where
  error_type : ErrorType
  confidence : ℚ
  message : String
  suggested_action : String
  is_retryable : Bool
deriving DecidableEq, Repr

/-- A regex from `ERROR_PATTERNS`, decomposed into its literal segments: every
pattern in the source is a sequence of literal pieces joined by `.*`.
Segments are stored lowercase, matching `re.IGNORECASE` search over the
already lowercased combined output. -/
abbrev Pat := List (List Char)

/-- Scan a line for the first occurrence of `seg` and return the remainder
after it, or `none`. -/
def dropAfterFirst (seg : List Char) : List Char → Option (List Char)
  | [] => if seg = [] then some [] else none
  | c :: rest =>
    if List.isPrefixOf seg (c :: rest) then some (List.drop seg.length (c :: rest))
    else dropAfterFirst seg rest

/-- The literal segments of a pattern occur, in order, within one line. -/
def segsMatchLine : Pat → List Char → Bool
  | [], _ => true
  | seg :: rest, line =>
    match dropAfterFirst seg line with
    | none => false
    | some r => segsMatchLine rest r

/-- Model of `re.search(pattern, text, re.IGNORECASE)` for an `ERROR_PATTERNS` regex:
since no literal segment contains a newline and `.*` does not cross
newlines, a match exists exactly when some line matches. -/
def reSearch (p : Pat) (text : List Char) : Bool :=
  (splitNl text).any (fun line => segsMatchLine p line)

/-- Quota-exhaustion patterns of `ERROR_PATTERNS[QUOTA_EXCEEDED]`. -/
def quotaPats : List Pat :=
  [ [ "429".data, "too many requests".data ],
    [ "quota exceeded".data ],
    [ "rate limit".data, "exceeded".data ],
    [ "quota metric".data, "exceeded".data ],
    [ "resource_exhausted".data ],
    [ "ratelimitexceeded".data ] ]

/-- Authentication patterns of `ERROR_PATTERNS[AUTHENTICATION_ERROR]`. -/
def authPats : List Pat :=
  [ [ "401".data, "unauthorized".data ],
    [ "403".data, "forbidden".data ],
    [ "authentication".data, "failed".data ],
    [ "invalid".data, "api".data, "key".data ],
    [ "unauthorized".data, "access".data ] ]

/-- Network patterns of `ERROR_PATTERNS[NETWORK_ERROR]`. -/
def networkPats : List Pat :=
  [ [ "network".data, "error".data ],
    [ "connection".data, "failed".data ],
    [ "connectivity".data, "issue".data ],
    [ "dns".data, "resolution".data, "failed".data ],
    [ "socket".data, "error".data ] ]

/-- Timeout patterns of `ERROR_PATTERNS[TIMEOUT_ERROR]`. -/
def timeoutPats : List Pat :=
  [ [ "timeout".data, "exceeded".data ],
    [ "request".data, "timed".data, "out".data ],
    [ "connection".data, "timeout".data ],
    [ "read".data, "timeout".data ] ]

/-- The table `ERROR_PATTERNS`, in dict insertion order. -/
def ERROR_PATTERNS : List (ErrorType × List Pat) :=
  [ (ErrorType.quotaExceeded, quotaPats),
    (ErrorType.authenticationError, authPats),
    (ErrorType.networkError, networkPats),
    (ErrorType.timeoutError, timeoutPats) ]

/-- The classify loop over `ERROR_PATTERNS`: first group with a matching
pattern wins, with the first matching pattern of that group. -/
def findPatternMatch : List (ErrorType × List Pat) → List Char → Option (ErrorType × Pat)
  | [], _ => none
  | (et, pats) :: rest, text =>
    match pats.find? (fun p => reSearch p text) with
    | some p => some (et, p)
    | none => findPatternMatch rest text

/-- Model of `_create_result`: the per-category message / action / retryable table.
Categories absent from `messages` fall back to the UNKNOWN_ERROR entry
(`messages.get`). `stdout`, `stderr` and `return_code` feed only the
unmodelled `technical_details`. -/
def create_result (et : ErrorType) (conf : ℚ)
    (_stdout _stderr : List Char) (_return_code : Int) : ErrorAnalysisResult :=
  let info : String × String × Bool :=
    match et with
    | ErrorType.quotaExceeded =>
        ("Gemini APIのクォータ制限に達しました",
         "24時間待機するか、別のプロバイダーを使用してください", true)
    | ErrorType.authenticationError =>
        ("API認証に失敗しました", "APIキーの設定を確認してください", false)
    | ErrorType.networkError =>
        ("ネットワーク接続に問題があります", "インターネット接続を確認してください", true)
    | ErrorType.timeoutError =>
        ("リクエストがタイムアウトしました", "しばらく待ってから再試行してください", true)
    | _ =>
        ("不明なエラーが発生しました",
         "ログを確認し、必要に応じてサポートに連絡してください", false)
  { error_type := et, confidence := conf, message := info.1,
    suggested_action := info.2.1, is_retryable := info.2.2 }

/-- The three `SPECIAL_CASES` literals, in dict insertion order. -/
def specialCaseApiError : List Char := "Error when talking to Gemini API".data

/-- Second `SPECIAL_CASES` literal. -/
def specialCaseFallback : List Char := "Fallback to Flash model failed".data

/-- Third `SPECIAL_CASES` literal. -/
def specialCaseCredentials : List Char := "Loaded cached credentials".data

/-- Model of `_check_special_cases`: case-sensitive substring checks on the raw
combined output, in dict order. -/
def check_special_cases (stdout stderr : List Char) : Option ErrorAnalysisResult :=
  let combined := stdout ++ '\n' :: stderr
  if isSub specialCaseApiError combined then
    some (create_result ErrorType.quotaExceeded (95/100) stdout stderr 1)
  else if isSub specialCaseFallback combined then
    some (create_result ErrorType.quotaExceeded (95/100) stdout stderr 1)
  else if isSub specialCaseCredentials combined then
    some (create_result ErrorType.successWithWarning (95/100) stdout stderr 1)
  else none

/-- Model of `_analyze_success_case`: every zero-exit outcome is reported as
SUCCESS_WITH_WARNING, with lower confidence when a warning string occurs. -/
def analyze_success_case (stdout stderr : List Char) : ErrorAnalysisResult :=
  let combined := stdout ++ '\n' :: stderr
  if [specialCaseApiError, specialCaseFallback, "warning".data, "Warning".data].any
      (fun w => isSub w combined) then
    { error_type := ErrorType.successWithWarning, confidence := 9/10,
      message := "処理は成功しましたが、警告が発生しています",
      suggested_action := "出力内容を確認し、必要に応じて対処してください",
      is_retryable := false }
  else
    { error_type := ErrorType.successWithWarning, confidence := 1,
      message := "処理が正常に完了しました",
      suggested_action := "特にアクションは必要ありません",
      is_retryable := false }

/-- Model of `_is_auth_error_not_quota`: substring indicators over the lowered
combined output. -/
def is_auth_error_not_quota (combined_output : List Char) : Bool :=
  (["401".data, "403".data, "authentication".data, "api key".data].any
      (fun w => isSub w combined_output))
  && !(["429".data, "quota".data, "rate limit".data, "resource_exhausted".data].any
      (fun w => isSub w combined_output))

/-- Model of `GeminiErrorClassifier.classify_error`. The confidence computed by
`_calculate_confidence` (a function of the `re.findall` match count, which
never influences the chosen category) is abstracted as the parameter
`calcConf`. -/
def classify_error (calcConf : Pat → List Char → ℚ)
    (stdout stderr : List Char) (return_code : Int) : ErrorAnalysisResult :=
  let combined_output := lowerStr (stdout ++ '\n' :: stderr)
  if return_code = 0 then
    analyze_success_case stdout stderr
  else
    match check_special_cases stdout stderr with
    | some r => r
    | none =>
      match findPatternMatch ERROR_PATTERNS combined_output with
      | some (et, p) => create_result et (calcConf p combined_output) stdout stderr return_code
      | none =>
        if is_auth_error_not_quota combined_output then
          create_result ErrorType.authenticationError (8/10) stdout stderr return_code
        else
          create_result ErrorType.unknownError (1/2) stdout stderr return_code

/-!
## Shared provider modelling

The caller environment `os.environ` is modelled as an association list;
subprocess execution and filesystem state are abstracted into explicit
parameters of the functions that consult them. Exceptions raised by the
providers are modelled as values of `PyExc`.
-/

/-- Exception taxonomy used by the providers (base_provider.py plus the
subprocess exceptions they catch). -/
inductive PyExc where
  | providerError (msg : String)
  | authenticationError (msg : String)
  | providerTimeoutError (msg : String)
  | responseError (msg : String)
  | timeoutExpired
  | calledProcessError (returncode : Int) (stdout stderr : List Char)
  | otherError (msg : String)
deriving DecidableEq, Repr

/-- Decidable equality on modelled call results. -/
instance instDecEqExcept {ε α : Type} [DecidableEq ε] [DecidableEq α] :
    DecidableEq (Except ε α) := fun a b =>
  match a, b with
  | Except.ok x, Except.ok y =>
    if h : x = y then isTrue (by rw [h]) else isFalse (by intro hc; cases hc; exact h rfl)
  | Except.error x, Except.error y =>
    if h : x = y then isTrue (by rw [h]) else isFalse (by intro hc; cases hc; exact h rfl)
  | Except.ok _, Except.error _ => isFalse (by intro hc; cases hc)
  | Except.error _, Except.ok _ => isFalse (by intro hc; cases hc)

/-- An `os.environ`-style dictionary lookup on an association list. -/
def lookupEnv (environ : List (String × String)) (k : String) : Option String :=
  (environ.find? (fun p => p.1 = k)).map (fun p => p.2)

/-- Dictionary assignment `env[k] = v`: replace an existing binding or append. -/
def setEnv (environ : List (String × String)) (k v : String) : List (String × String) :=
  if environ.any (fun p => p.1 = k) then
    environ.map (fun p => if p.1 = k then (k, v) else p)
  else environ ++ [(k, v)]

/-!
## claude_code_provider.py — ClaudeCodeProvider
-/

/-- The `safe_vars` list of ClaudeCodeProvider `_create_safe_environment`. -/
def claudeSafeVars : List String :=
  ["PATH", "HOME", "USER", "CLAUDE_API_KEY", "ANTHROPIC_API_KEY", "LANG", "LC_ALL", "NO_COLOR"]

/-- ClaudeCodeProvider `_create_safe_environment`: copy only the allow-listed
variables from the caller environment (NO_COLOR forced to 1), then pop the
shell variables (a no-op, as they are not in the allow-list). -/
def claudeCreateSafeEnvironment (environ : List (String × String)) : List (String × String) :=
  (claudeSafeVars.filterMap (fun var =>
      (lookupEnv environ var).map (fun v =>
        (var, if var = "NO_COLOR" then "1" else v)))).filter
    (fun p => p.1 ∉ ["SHELL", "PS1", "PS2"])

/-- Constant `MAX_STDOUT_SIZE` of ClaudeCodeProvider. -/
def MAX_STDOUT_SIZE : Nat := 2 * 1024 * 1024

/-- Constant `MAX_STDERR_SIZE` of ClaudeCodeProvider. -/
def MAX_STDERR_SIZE : Nat := 1024 * 1024

/-- The truncation marker appended for stdout. -/
def stdoutMarker : List Char := ("\n... (stdout truncated due to size limit)").data

/-- ClaudeCodeProvider `_truncate_output`: output within the cap is returned
unchanged; otherwise the first `maxSize` bytes are kept (the trailing
partially-cut character dropped by `errors=ignore`) and the marker is
appended. -/
def truncate_output (output : List Char) (maxSize : Nat) (marker : List Char) : List Char :=
  if output = [] then []
  else if utf8Len output ≤ maxSize then output
  else takeBytes maxSize output ++ marker

/-- ClaudeCodeProvider timeout: `min(int(config timeout), MAX_TIMEOUT)` with
`MAX_TIMEOUT = 600`; there is no lower clamp. -/
def claudeCliTimeout (timeout_value : Int) : Int := min timeout_value 600

/-- Constant `ALLOWED_BINARIES` of ClaudeCodeProvider. -/
def claudeAllowedBinaries : List (List Char) := ["claude-code".data, "claude".data]

/-- ClaudeCodeProvider `_verify_binary_security`. The filesystem is abstracted
as the two stat bits and the symlink resolution function `resolve`
(`Path.resolve()`). -/
def verify_binary_security (isFile isExec : Bool) (resolve : List Char → List Char)
    (binary_path : List Char) : Except PyExc Unit :=
  if !isFile then Except.error (PyExc.providerError "バイナリファイルが存在しません")
  else if !isExec then Except.error (PyExc.providerError "バイナリに実行権限がありません")
  else
    let resolved := resolve binary_path
    if basename resolved ∉ claudeAllowedBinaries then
      Except.error (PyExc.providerError "許可されていないバイナリ名です")
    else
      match ["/tmp/".data, "/var/tmp/".data].find? (fun pat => isSub pat resolved) with
      | some _ => Except.error (PyExc.providerError "危険なパスが検出されました")
      | none => Except.ok ()

/-- ClaudeCodeProvider `test_connection`, as a function of the outcome of
`_execute_claude_code_command` on the fixed test prompt: a response
containing `ok` yields True, any other response False; AuthenticationError
is re-raised and every other exception is wrapped into ProviderError. -/
def claudeTestConnection (execOutcome : Except PyExc (List Char)) : Except PyExc Bool :=
  match execOutcome with
  | Except.ok response =>
    if response ≠ [] && isSub "ok".data (lowerStr (pyStrip response)) then Except.ok true
    else Except.ok false
  | Except.error e =>
    match e with
    | PyExc.authenticationError m => Except.error (PyExc.authenticationError m)
    | _ => Except.error (PyExc.providerError "Claude Code CLI接続テストに失敗しました")

/-!
## gemini_native_cli_provider.py — GeminiNativeCLIProvider
-/

/-- The `safe_vars` list of GeminiNativeCLIProvider `_create_safe_environment`. -/
def nativeSafeVars : List String := ["PATH", "HOME", "USER", "LANG", "LC_ALL", "NO_COLOR"]

/-- GeminiNativeCLIProvider `_create_safe_environment`: allow-listed copy,
shell variables popped (no-op), then `setdefault(LC_ALL, C.UTF-8)`. -/
def nativeCreateSafeEnvironment (environ : List (String × String)) : List (String × String) :=
  let safe_env :=
    (nativeSafeVars.filterMap (fun var =>
        (lookupEnv environ var).map (fun v =>
          (var, if var = "NO_COLOR" then "1" else v)))).filter
      (fun p => p.1 ∉ ["SHELL", "PS1", "PS2"])
  if safe_env.any (fun p => p.1 = "LC_ALL") then safe_env
  else safe_env ++ [("LC_ALL", "C.UTF-8")]

/-- Gemini provider timeout (native and direct have the same formula):
`min(max(cfg, 1), MAX_TIMEOUT)` with `MAX_TIMEOUT = 300`. -/
def geminiCliTimeout (cfg_timeout : Int) : Int := min (max cfg_timeout 1) 300

/-- GeminiDirectCLIProvider `validate_config` timeout rule: reject values
`<= 0` or `> MAX_TIMEOUT` before construction completes. -/
def geminiDirectTimeoutValid (timeout_int : Int) : Bool :=
  !(timeout_int ≤ 0 || timeout_int > 300)

/-- GeminiNativeCLIProvider `_is_safe_binary_path`: resolve symlinks, then
reject when any dangerous pattern occurs in the resolved path. -/
def native_is_safe_binary_path (resolve : List Char → List Char) (path : List Char) : Bool :=
  let normalized := resolve path
  !(["/tmp/".data, "/var/tmp/".data, "/dev/".data, "/proc/".data,
     "..".data, "~".data, "$".data].any (fun pat => isSub pat normalized))

/-- GeminiNativeCLIProvider `_execute_gemini_command` argv/stdin choice:
prompts over 8192 UTF-8 bytes go through stdin (argv placeholder `-`),
smaller ones ride in argv. Returns the argv and the optional stdin payload. -/
def nativeBuildCommand (gemini_path prompt : List Char) :
    List (List Char) × Option (List Char) :=
  if utf8Len prompt > 8192 then
    ([gemini_path, "--prompt".data, "-".data], some prompt)
  else
    ([gemini_path, "--prompt".data, prompt], none)

/-- GeminiNativeCLIProvider `test_connection`: `except Exception: return False`
— every failure, authentication included, becomes a False return. -/
def nativeTestConnection (execOutcome : Except PyExc (List Char)) : Except PyExc Bool :=
  match execOutcome with
  | Except.ok r => Except.ok (r ≠ [] && pyStrip r ≠ [])
  | Except.error _ => Except.ok false

/-- The skip condition of the `_clean_response` line loop in
GeminiNativeCLIProvider: system-message-looking lines and blank lines. -/
def nativeNoiseLine (l : List Char) : Bool :=
  List.isPrefixOf ("Loaded cached credentials").data l
  || List.isPrefixOf ("Error executing tool").data l
  || List.isPrefixOf ("Tool \"").data l
  || List.isPrefixOf ("Did you mean one of:").data l
  || l.isEmpty

/-- One iteration of the `_clean_response` line loop: strip the line, skip it
when it is noise, keep the stripped line otherwise. -/
def nativeFilterLine (line : List Char) : Option (List Char) :=
  let l := pyStrip line
  if nativeNoiseLine l then none else some l

/-- GeminiNativeCLIProvider `_clean_response`: strip, split into lines, drop
noise lines and blanks, return the first remaining line (or the stripped
input when nothing remains). -/
def nativeCleanResponse (response : List Char) : List Char :=
  let cleaned := pyStrip response
  match (splitNl cleaned).filterMap nativeFilterLine with
  | [] => cleaned
  | l :: _ => l

/-!
## gemini_direct_cli_provider.py — GeminiDirectCLIProvider
-/

/-- GeminiDirectCLIProvider subprocess environment (`_execute_with_args` and
`_execute_with_tempfile`): a full `os.environ.copy()`, with the API-key
variables added when an api_key is configured. -/
def geminiDirectEnv (environ : List (String × String)) (apiKey : Option String) :
    List (String × String) :=
  match apiKey with
  | none => environ
  | some k => setEnv (setEnv environ "GEMINI_API_KEY" k) "GOOGLE_API_KEY" k

/-- Constant `ALLOWED_BINARIES` of GeminiDirectCLIProvider. -/
def geminiDirectAllowedBinaries : List (List Char) :=
  ["gemini".data, "gemini-wrapper.sh".data]

/-- GeminiDirectCLIProvider `_verify_gemini_binary`: the wrapper script is
accepted on existence/regular-file/executable alone; otherwise the
`shutil.which` result is accepted after a basename allow-list check on the
unresolved path. No realpath or blocklisted-directory check is performed. -/
def verify_gemini_binary (wrapperExists wrapperIsFile wrapperExec : Bool)
    (wrapperPath : List Char) (whichGemini : Option (List Char)) :
    Except PyExc (List Char) :=
  if wrapperExists && wrapperIsFile && wrapperExec then Except.ok wrapperPath
  else
    match whichGemini with
    | none => Except.error (PyExc.providerError "geminiコマンドが見つかりません")
    | some gemini_path =>
      if basename gemini_path ∉ geminiDirectAllowedBinaries then
        Except.error (PyExc.providerError "許可されていないバイナリ")
      else Except.ok gemini_path

/-- GeminiDirectCLIProvider argv/stdin choice (`_execute_gemini_command`
dispatching to `_execute_with_tempfile` for prompts over 8192 UTF-8 bytes —
which passes the prompt on stdin — and `_execute_with_args` otherwise). -/
def directBuildCommand (gemini_path model prompt : List Char) :
    List (List Char) × Option (List Char) :=
  let modelArgs := if model ≠ ("gemini-1.5-pro").data then ["-m".data, model] else []
  if utf8Len prompt > 8192 then
    (gemini_path :: modelArgs, some prompt)
  else
    (gemini_path :: modelArgs ++ ["--prompt".data, prompt], none)

/-- The prefix labels removed by GeminiDirectCLIProvider `_clean_response`.
The second label contains an apostrophe, built here with `Char.ofNat 39`. -/
def directPrefixes : List (List Char) :=
  [ ("Commit message:").data,
    ("Here").data ++ [Char.ofNat 39] ++ ("s a commit message:").data,
    ("Suggested commit message:").data,
    ("The commit message is:").data,
    ("Commit:").data ]

/-- The prefix-removal loop of `_clean_response`: each label, in order, is
stripped (case-insensitively) from the front at most once. -/
def stripPrefixLoop : List (List Char) → List Char → List Char
  | [], cleaned => cleaned
  | p :: ps, cleaned =>
    stripPrefixLoop ps
      (if List.isPrefixOf (lowerStr p) (lowerStr cleaned) then pyStrip (cleaned.drop p.length)
       else cleaned)

/-- The code-fence unwrapping step of `_clean_response`. -/
def directUnwrapFence (cleaned : List Char) : List Char :=
  if List.isPrefixOf ("```").data cleaned && List.isSuffixOf ("```").data cleaned then
    let lines := splitNl cleaned
    if lines.length > 2 then pyStrip (joinNl (lines.drop 1).dropLast)
    else cleaned
  else cleaned

/-- The quote-stripping step of `_clean_response`. -/
def directUnwrapQuotes (cleaned : List Char) : List Char :=
  if (cleaned.head? = some '"' && cleaned.getLast? = some '"')
      || (cleaned.head? = some (Char.ofNat 39) && cleaned.getLast? = some (Char.ofNat 39)) then
    pyStrip (cleaned.drop 1).dropLast
  else cleaned

/-- GeminiDirectCLIProvider `_clean_response`: strip, remove prefix labels,
unwrap a fenced block, strip one pair of surrounding quotes. -/
def directCleanResponse (response : List Char) : List Char :=
  directUnwrapQuotes (directUnwrapFence (stripPrefixLoop directPrefixes (pyStrip response)))

/-- GeminiDirectCLIProvider `test_connection`, as a function of the outcome of
`_execute_gemini_command` on the fixed test prompt: TimeoutExpired becomes a
raised ProviderTimeoutError, CalledProcessError with exit 1 a raised
AuthenticationError (other exits a raised ProviderError), any other
exception a raised ProviderError; only a successful execution produces a
boolean. -/
def directTestConnection (execOutcome : Except PyExc (List Char)) : Except PyExc Bool :=
  match execOutcome with
  | Except.ok response => Except.ok (response ≠ [] && pyStrip response ≠ [])
  | Except.error PyExc.timeoutExpired =>
      Except.error (PyExc.providerTimeoutError "Gemini CLI接続テストタイムアウト")
  | Except.error (PyExc.calledProcessError rc _ _) =>
      if rc = 1 then Except.error (PyExc.authenticationError "Gemini CLI認証エラー")
      else Except.error (PyExc.providerError "Gemini CLI接続テストエラー")
  | Except.error _ => Except.error (PyExc.providerError "Gemini CLI接続テスト予期しないエラー")

/-!
## gemini_direct_cli_provider_refactored.py — GeminiDirectCLIProviderRefactored
-/

/-- The `harmful_patterns` of the refactored provider `_validate_response`. -/
def harmfulPatterns : List (List Char) :=
  ["error".data, "failed".data, "exception".data, "traceback".data]

/-- Refactored provider `_validate_response`: reject empty/whitespace
responses, responses shorter than three characters after stripping, and any
response whose lowercase form contains a harmful pattern. -/
def refactoredValidateResponse (response : List Char) : Bool :=
  if response = [] || pyStrip response = [] then false
  else if (pyStrip response).length < 3 then false
  else if harmfulPatterns.any (fun p => isSub p (lowerStr response)) then false
  else true

/-- Refactored provider `generate_commit_message`, as a function of the
response string returned by `_execute_gemini_command`: an invalid response
raises ProviderError (re-wrapped by the outer `except Exception` handler),
a valid one is returned stripped. -/
def refactoredGenerate (response : List Char) : Except PyExc (List Char) :=
  if refactoredValidateResponse response then Except.ok (pyStrip response)
  else Except.error (PyExc.providerError "予期しないエラー: 生成されたコミットメッセージが無効です")

/-!
## Definitions used to state the claims
-/

/-- The environment allow-list named by the spec: PATH, HOME, USER, locale
variables, NO_COLOR, and the provider-specific API-key variables. -/
def envAllowList : List String :=
  ["PATH", "HOME", "USER", "LANG", "LC_ALL", "NO_COLOR",
   "CLAUDE_API_KEY", "ANTHROPIC_API_KEY"]

/-- A string on which every transformation step of the direct provider
`_clean_response` is inert: no removable label at the front, not a
multi-line fenced block, not wrapped in matching quotes. -/
def directCleanFixed (y : List Char) : Prop :=
  (∀ p ∈ directPrefixes, ¬ List.isPrefixOf (lowerStr p) (lowerStr y) = true)
  ∧ ¬(List.isPrefixOf ("```").data y = true ∧ List.isSuffixOf ("```").data y = true
      ∧ (splitNl y).length > 2)
  ∧ ¬((y.head? = some '"' ∧ y.getLast? = some '"')
      ∨ (y.head? = some (Char.ofNat 39) ∧ y.getLast? = some (Char.ofNat 39)))

/-- The fixed-point condition is decidable, so it can be checked on concrete
strings. -/
instance instDecDirectCleanFixed (y : List Char) : Decidable (directCleanFixed y) := by
  unfold directCleanFixed
  exact inferInstance

/-- An over-cap stdout used as concrete witness input: one more one-byte
character than `MAX_STDOUT_SIZE` allows. -/
def bigStdout : List Char := List.replicate (MAX_STDOUT_SIZE + 1) 'A'

/-- A prompt one byte over the 8KB stdin threshold, used as witness input. -/
def bigPrompt : List Char := List.replicate 8193 'a'

/-!
## Utility lemmas
-/

/-- Byte length distributes over append. -/
theorem utf8Len_append (a b : List Char) : utf8Len (a ++ b) = utf8Len a + utf8Len b := by
  simp [utf8Len]

/-- Byte length of a cons cell. -/
theorem utf8Len_cons (c : Char) (s : List Char) :
    utf8Len (c :: s) = c.utf8Size + utf8Len s := by
  simp [utf8Len]

/-- Byte length of a replicated one-byte character. -/
theorem utf8Len_replicate (n : Nat) (c : Char) (h : c.utf8Size = 1) :
    utf8Len (List.replicate n c) = n := by
  simp [utf8Len, List.map_replicate, h, List.sum_replicate]

/-- The byte-bounded take never exceeds its budget. -/
theorem utf8Len_takeBytes (s : List Char) : ∀ n, utf8Len (takeBytes n s) ≤ n := by
  induction s with
  | nil => intro n; simp [takeBytes, utf8Len]
  | cons c cs ih =>
    intro n
    by_cases h : c.utf8Size ≤ n
    · simp only [takeBytes, if_pos h, utf8Len_cons]
      have := ih (n - c.utf8Size)
      omega
    · simp [takeBytes, if_neg h, utf8Len]

/-- The result of `pyStrip` is unchanged by the right strip in Mathlib form. -/
theorem pyStrip_eq_rdropWhile (s : List Char) :
    pyStrip s = List.rdropWhile pySpace (s.dropWhile pySpace) := rfl

/-- The right strip keeps an initial segment of its argument. -/
theorem rdropWhile_isPrefix (p : Char → Bool) (l : List Char) :
    List.rdropWhile p l <+: l := by
  rw [← List.reverse_suffix, List.rdropWhile, List.reverse_reverse]
  exact List.dropWhile_suffix p

/-- Left-stripping a left-and-right stripped string changes nothing. -/
theorem dropWhile_rdropWhile_dropWhile (p : Char → Bool) (t : List Char) :
    List.dropWhile p (List.rdropWhile p (List.dropWhile p t))
      = List.rdropWhile p (List.dropWhile p t) := by
  rw [List.dropWhile_eq_self_iff]
  intro hl
  have hpre := rdropWhile_isPrefix p (List.dropWhile p t)
  have hlen : 0 < (List.dropWhile p t).length := lt_of_lt_of_le hl hpre.length_le
  have h0 : (List.rdropWhile p (List.dropWhile p t)).get ⟨0, hl⟩
      = (List.dropWhile p t).get ⟨0, hlen⟩ := by
    simpa using hpre.getElem (by simpa using hl)
  rw [h0]
  exact List.dropWhile_get_zero_not p t hlen

/-- Python strip is idempotent. -/
theorem pyStrip_idem (s : List Char) : pyStrip (pyStrip s) = pyStrip s := by
  rw [pyStrip_eq_rdropWhile, pyStrip_eq_rdropWhile, dropWhile_rdropWhile_dropWhile,
    List.rdropWhile_idempotent]

/-- Stripping only removes characters. -/
theorem mem_of_mem_pyStrip {c : Char} {s : List Char} (h : c ∈ pyStrip s) : c ∈ s := by
  rw [pyStrip_eq_rdropWhile] at h
  have h1 : c ∈ List.dropWhile pySpace s :=
    (rdropWhile_isPrefix pySpace (List.dropWhile pySpace s)).sublist.subset h
  exact (List.dropWhile_suffix pySpace).sublist.subset h1

/-- Newline splitting never produces an empty list of pieces. -/
theorem splitNl_ne_nil (s : List Char) : splitNl s ≠ [] := by
  cases s with
  | nil => simp [splitNl]
  | cons c rest =>
    by_cases h : c = '\n'
    · simp [splitNl, h]
    · simp only [splitNl, if_neg h]
      cases splitNl rest <;> simp

/-- Pieces produced by newline splitting contain no newline. -/
theorem splitNl_no_newline (s : List Char) : ∀ l ∈ splitNl s, '\n' ∉ l := by
  induction s with
  | nil =>
    intro l hl
    simp [splitNl] at hl
    simp [hl]
  | cons c rest ih =>
    intro l hl
    by_cases h : c = '\n'
    · simp only [splitNl, if_pos h, List.mem_cons] at hl
      rcases hl with hl | hl
      · simp [hl]
      · exact ih l hl
    · simp only [splitNl, if_neg h] at hl
      cases hr : splitNl rest with
      | nil => exact absurd hr (splitNl_ne_nil rest)
      | cons hd tl =>
        rw [hr] at hl
        simp only [List.mem_cons] at hl
        rcases hl with hl | hl
        · subst hl
          intro hmem
          rcases List.mem_cons.mp hmem with h1 | h1
          · exact h h1.symm
          · exact ih hd (by rw [hr]; exact List.mem_cons_self hd tl) h1
        · exact ih l (by rw [hr]; exact List.mem_cons_of_mem hd hl)

/-- Splitting a newline-free string yields just that string. -/
theorem splitNl_single (s : List Char) (h : '\n' ∉ s) : splitNl s = [s] := by
  induction s with
  | nil => rfl
  | cons c rest ih =>
    have hc : ¬ c = '\n' := fun hc => h (by simp [hc])
    have hr : splitNl rest = [rest] := ih (fun hm => h (List.mem_cons_of_mem c hm))
    simp [splitNl, hc, hr]

/-!
## Claim C3 (corrected)
-/

/-- If the combined output does not contain the cached-credentials literal,
the special-case scan either abstains or classifies as quota exhaustion. -/
theorem check_special_cases_no_credentials (stdout stderr : List Char)
    (hnc : isSub specialCaseCredentials (stdout ++ '\n' :: stderr) = false) :
    check_special_cases stdout stderr = none
    ∨ ∃ r, check_special_cases stdout stderr = some r
        ∧ r.error_type = ErrorType.quotaExceeded := by
  unfold check_special_cases
  dsimp only
  split_ifs with h1 h2 h3
  · right; exact ⟨_, rfl, rfl⟩
  · right; exact ⟨_, rfl, rfl⟩
  · rw [hnc] at h3; cases h3
  · left; rfl

/-- A matching quota pattern makes the ordered pattern scan return the quota
group, whatever the other groups would match. -/
theorem findPatternMatch_quota (text : List Char)
    (hq : ∃ p ∈ quotaPats, reSearch p text = true) :
    ∃ p, findPatternMatch ERROR_PATTERNS text = some (ErrorType.quotaExceeded, p) := by
  have hsome : (quotaPats.find? (fun p => reSearch p text)).isSome := by
    rw [List.find?_isSome]
    obtain ⟨p, hp, hm⟩ := hq
    exact ⟨p, hp, by simpa using hm⟩
  obtain ⟨q, hqq⟩ := Option.isSome_iff_exists.mp hsome
  refine ⟨q, ?_⟩
  unfold ERROR_PATTERNS findPatternMatch
  rw [hqq]

/-- C3, amended: for every outcome with nonzero exit code whose combined
stdout+stderr text matches at least one quota-exhaustion pattern and at
least one authentication pattern, `classify_error` returns QuotaExceeded —
never AuthenticationRequired — provided the combined text does not contain
the special-case literal Loaded cached credentials, which is checked
before the pattern groups and instead yields SUCCESS_WITH_WARNING. -/
theorem claim3_quota_beats_auth (calcConf : Pat → List Char → ℚ)
    (stdout stderr : List Char) (rc : Int) (hrc : ¬ rc = 0)
    (hnc : isSub specialCaseCredentials (stdout ++ '\n' :: stderr) = false)
    (hq : ∃ p ∈ quotaPats, reSearch p (lowerStr (stdout ++ '\n' :: stderr)) = true)
    (_ha : ∃ p ∈ authPats, reSearch p (lowerStr (stdout ++ '\n' :: stderr)) = true) :
    (classify_error calcConf stdout stderr rc).error_type = ErrorType.quotaExceeded := by
  unfold classify_error
  dsimp only
  rw [if_neg hrc]
  rcases check_special_cases_no_credentials stdout stderr hnc with hsc | ⟨r, hsc, hr⟩
  · rw [hsc]
    obtain ⟨p, hfp⟩ := findPatternMatch_quota (lowerStr (stdout ++ '\n' :: stderr)) hq
    rw [hfp]
    rfl
  · rw [hsc]
    exact hr

/-- Witness for C3 at a concrete outcome matching both a quota and an
authentication pattern. -/
theorem claim3_quota_beats_auth_witness :
    (¬ (1 : Int) = 0)
    ∧ isSub specialCaseCredentials
          ([] ++ '\n' :: ("429 Too Many Requests and 401 Unauthorized").data) = false
    ∧ reSearch [("429").data, ("too many requests").data]
          (lowerStr ([] ++ '\n' :: ("429 Too Many Requests and 401 Unauthorized").data)) = true
    ∧ reSearch [("401").data, ("unauthorized").data]
          (lowerStr ([] ++ '\n' :: ("429 Too Many Requests and 401 Unauthorized").data)) = true
    ∧ (classify_error (fun _ _ => 0) []
          ("429 Too Many Requests and 401 Unauthorized").data 1).error_type
        = ErrorType.quotaExceeded :=
  ⟨by decide, by decide, by decide, by decide,
   claim3_quota_beats_auth (fun _ _ => 0) [] ("429 Too Many Requests and 401 Unauthorized").data 1
     (by decide) (by decide)
     ⟨[("429").data, ("too many requests").data], by decide, by decide⟩
     ⟨[("401").data, ("unauthorized").data], by decide, by decide⟩⟩

/-- Counterexample to C3 as stated: an outcome whose combined text matches
both a quota pattern and an authentication pattern but also contains
Loaded cached credentials is classified SUCCESS_WITH_WARNING by the
special-case scan, not QuotaExceeded. -/
theorem claim3_counterexample :
    reSearch [("429").data, ("too many requests").data]
        (lowerStr (specialCaseCredentials ++ '\n'
          :: ("429 Too Many Requests 401 Unauthorized").data)) = true
    ∧ reSearch [("401").data, ("unauthorized").data]
        (lowerStr (specialCaseCredentials ++ '\n'
          :: ("429 Too Many Requests 401 Unauthorized").data)) = true
    ∧ (classify_error (fun _ _ => 0) specialCaseCredentials
          ("429 Too Many Requests 401 Unauthorized").data 1).error_type
        = ErrorType.successWithWarning := by decide

/-!
## Claim C2 (corrected)
-/

/-- C2, amended: for every outcome with exit code 0 and empty or
whitespace-only stdout, `classify_error` returns the unified success
category SUCCESS_WITH_WARNING (retryable false); the classifier has no
EmptyResponse category and does not treat empty stdout as a failure. -/
theorem claim2_zero_exit_is_success (calcConf : Pat → List Char → ℚ)
    (stdout stderr : List Char) (h : pyStrip stdout = []) :
    (classify_error calcConf stdout stderr 0).error_type = ErrorType.successWithWarning
    ∧ (classify_error calcConf stdout stderr 0).is_retryable = false := by
  unfold classify_error analyze_success_case
  split
  · dsimp only
    split <;> simp
  · simp_all

/-- Witness for C2 at a concrete whitespace-only stdout. -/
theorem claim2_zero_exit_is_success_witness :
    pyStrip ("  ").data = []
    ∧ ((classify_error (fun _ _ => 0) ("  ").data [] 0).error_type
          = ErrorType.successWithWarning
      ∧ (classify_error (fun _ _ => 0) ("  ").data [] 0).is_retryable = false) :=
  ⟨by decide, claim2_zero_exit_is_success (fun _ _ => 0) ("  ").data [] (by decide)⟩

/-- Counterexample to C2 as stated: on exit code 0 with empty stdout the
classifier returns exactly the same generic success result as on a valid
non-empty commit message — there is no distinct EmptyResponse failure
classification. -/
theorem claim2_counterexample :
    classify_error (fun _ _ => 0) [] [] 0
      = classify_error (fun _ _ => 0) ("feat: add parsing").data [] 0
    ∧ (classify_error (fun _ _ => 0) [] [] 0).error_type
        = ErrorType.successWithWarning := by decide

/-!
## Claim C4 (corrected)
-/

/-- C4, amended: stdout over `MAX_STDOUT_SIZE` UTF-8 bytes is truncated to
the longest decodable prefix within the cap with the marker appended once
at the end, so the captured byte length is at most the cap plus the marker
length; stdout within the cap is returned unchanged (text identical to the
marker that is already part of the output is retained, so the marker need
not occur exactly once overall). -/
theorem claim4_truncate_bound (output marker : List Char) :
    (utf8Len output ≤ MAX_STDOUT_SIZE →
      truncate_output output MAX_STDOUT_SIZE marker = output)
    ∧ (utf8Len output > MAX_STDOUT_SIZE →
      truncate_output output MAX_STDOUT_SIZE marker
          = takeBytes MAX_STDOUT_SIZE output ++ marker
      ∧ utf8Len (truncate_output output MAX_STDOUT_SIZE marker)
          ≤ MAX_STDOUT_SIZE + utf8Len marker) := by
  constructor
  · intro h
    unfold truncate_output
    by_cases he : output = []
    · simp [he]
    · simp [he, h]
  · intro h
    have he : output ≠ [] := by
      intro he
      rw [he] at h
      simp [utf8Len] at h
    have hle : ¬ utf8Len output ≤ MAX_STDOUT_SIZE := not_le.mpr h
    have heq : truncate_output output MAX_STDOUT_SIZE marker
        = takeBytes MAX_STDOUT_SIZE output ++ marker := by
      unfold truncate_output
      simp [he, hle]
    refine ⟨heq, ?_⟩
    rw [heq, utf8Len_append]
    have := utf8Len_takeBytes output MAX_STDOUT_SIZE
    omega

/-- Witness for C4 at a concrete over-cap stdout. -/
theorem claim4_truncate_bound_witness :
    utf8Len bigStdout > MAX_STDOUT_SIZE
    ∧ (truncate_output bigStdout MAX_STDOUT_SIZE stdoutMarker
          = takeBytes MAX_STDOUT_SIZE bigStdout ++ stdoutMarker
      ∧ utf8Len (truncate_output bigStdout MAX_STDOUT_SIZE stdoutMarker)
          ≤ MAX_STDOUT_SIZE + utf8Len stdoutMarker) :=
  have hbig : utf8Len bigStdout > MAX_STDOUT_SIZE := by
    rw [bigStdout, utf8Len_replicate _ _ (by decide)]
    omega
  ⟨hbig, (claim4_truncate_bound bigStdout stdoutMarker).2 hbig⟩

/-- Counterexample to C4 as stated: a stdout consisting of exactly the
marker text is within the cap, is returned unchanged — and therefore
contains the truncation marker even though no truncation occurred,
contradicting the no-marker clause for within-cap stdout. -/
theorem claim4_counterexample :
    utf8Len stdoutMarker ≤ MAX_STDOUT_SIZE
    ∧ truncate_output stdoutMarker MAX_STDOUT_SIZE stdoutMarker = stdoutMarker
    ∧ isSub stdoutMarker (truncate_output stdoutMarker MAX_STDOUT_SIZE stdoutMarker)
        = true := by decide

/-!
## Claim C7 (corrected)
-/

/-- C7, amended: the Gemini providers clamp the configured timeout into
[1, MAX_TIMEOUT] = [1, 300] (the direct provider additionally rejects
out-of-range values at validation time, before the clamp); the Claude Code
provider only caps the value above at MAX_TIMEOUT = 600 and applies no
lower clamp, storing sub-second and non-positive values unchanged. -/
theorem claim7_timeout_clamp :
    (∀ t : Int, 1 ≤ geminiCliTimeout t ∧ geminiCliTimeout t ≤ 300)
    ∧ (∀ t : Int, claudeCliTimeout t ≤ 600)
    ∧ (∀ t : Int, t ≤ 600 → claudeCliTimeout t = t)
    ∧ (∀ t : Int, t ≤ 0 → geminiDirectTimeoutValid t = false) := by
  refine ⟨fun t => ?_, fun t => min_le_right t 600, fun t h => min_eq_left h, fun t h => ?_⟩
  · unfold geminiCliTimeout
    constructor
    · exact le_min (le_max_right t 1) (by norm_num)
    · exact min_le_right _ _
  · simp [geminiDirectTimeoutValid, h]

/-- Witness for C7 at concrete timeout values. -/
theorem claim7_timeout_clamp_witness :
    (1 ≤ geminiCliTimeout (-5) ∧ geminiCliTimeout (-5) ≤ 300)
    ∧ claudeCliTimeout 45 = 45
    ∧ geminiDirectTimeoutValid 0 = false :=
  ⟨claim7_timeout_clamp.1 (-5),
   claim7_timeout_clamp.2.2.1 45 (by norm_num),
   claim7_timeout_clamp.2.2.2 0 (by norm_num)⟩

/-- Counterexample to C7 as stated: the Claude Code provider stores a
configured timeout of 0 as 0 — a value below 1 second is not raised to 1. -/
theorem claim7_counterexample :
    claudeCliTimeout 0 = 0 ∧ ¬ (1 ≤ claudeCliTimeout 0) := by decide

/-!
## Claim C10 (confirmed)
-/

/-- C10: any response string returned by the refactored provider subprocess
execution whose lowercase form contains one of the substrings error,
failed, exception, traceback is rejected by `_validate_response`, and
`generate_commit_message` raises ProviderError instead of returning it —
regardless of exit code or of the response being an otherwise valid commit
message. -/
theorem claim10_harmful_pattern_rejected (response : List Char)
    (h : harmfulPatterns.any (fun p => isSub p (lowerStr response)) = true) :
    refactoredGenerate response
      = Except.error
          (PyExc.providerError "予期しないエラー: 生成されたコミットメッセージが無効です") := by
  have hv : refactoredValidateResponse response = false := by
    unfold refactoredValidateResponse
    split_ifs with h1 h2 <;> rfl
  simp [refactoredGenerate, hv]

/-- Witness for C10: a perfectly reasonable commit message about an
error-handling fix is rejected. -/
theorem claim10_harmful_pattern_rejected_witness :
    harmfulPatterns.any
        (fun p => isSub p (lowerStr ("fix: handle error in parsing").data)) = true
    ∧ refactoredGenerate ("fix: handle error in parsing").data
        = Except.error
            (PyExc.providerError "予期しないエラー: 生成されたコミットメッセージが無効です") :=
  ⟨by decide, claim10_harmful_pattern_rejected ("fix: handle error in parsing").data (by decide)⟩

/-!
## Claim C5 (corrected)
-/

/-- Characterization of a kept line of the native clean loop. -/
theorem nativeFilterLine_some {line l : List Char} (h : nativeFilterLine line = some l) :
    l = pyStrip line ∧ nativeNoiseLine l = false := by
  unfold nativeFilterLine at h
  dsimp only at h
  split_ifs at h with hn
  obtain rfl := Option.some.inj h
  exact ⟨rfl, by simpa using hn⟩

/-- A stripped, non-noise line is kept unchanged by the native clean loop. -/
theorem nativeFilterLine_self {l : List Char} (hstrip : pyStrip l = l)
    (hn : nativeNoiseLine l = false) : nativeFilterLine l = some l := by
  unfold nativeFilterLine
  dsimp only
  rw [hstrip, hn]
  rfl

/-- The native clean function leaves a stripped, newline-free, non-noise line
unchanged. -/
theorem nativeClean_fixed (y : List Char) (hy : pyStrip y = y) (hnl : '\n' ∉ y)
    (hn : nativeNoiseLine y = false) : nativeCleanResponse y = y := by
  unfold nativeCleanResponse
  dsimp only
  rw [hy, splitNl_single y hnl]
  simp [List.filterMap_cons, nativeFilterLine_self hy hn]

/-- The native clean function is idempotent. -/
theorem nativeClean_idem (x : List Char) :
    nativeCleanResponse (nativeCleanResponse x) = nativeCleanResponse x := by
  rcases hm : (splitNl (pyStrip x)).filterMap nativeFilterLine with _ | ⟨l, rest⟩
  · have hx : nativeCleanResponse x = pyStrip x := by
      unfold nativeCleanResponse
      dsimp only
      rw [hm]
    rw [hx]
    unfold nativeCleanResponse
    dsimp only
    rw [pyStrip_idem, hm]
  · have hx : nativeCleanResponse x = l := by
      unfold nativeCleanResponse
      dsimp only
      rw [hm]
    rw [hx]
    have hl : l ∈ (splitNl (pyStrip x)).filterMap nativeFilterLine := by
      rw [hm]
      exact List.mem_cons_self l rest
    rw [List.mem_filterMap] at hl
    obtain ⟨line, hline, hfl⟩ := hl
    obtain ⟨hleq, hnoise⟩ := nativeFilterLine_some hfl
    have hstrip : pyStrip l = l := by rw [hleq, pyStrip_idem]
    have hnl : '\n' ∉ l := by
      intro hin
      rw [hleq] at hin
      exact splitNl_no_newline (pyStrip x) line hline (mem_of_mem_pyStrip hin)
    exact nativeClean_fixed l hstrip hnl hnoise

/-- The prefix-removal loop is inert when no label matches. -/
theorem stripPrefixLoop_of_no_match (ps : List (List Char)) (y : List Char)
    (h : ∀ p ∈ ps, ¬ List.isPrefixOf (lowerStr p) (lowerStr y) = true) :
    stripPrefixLoop ps y = y := by
  induction ps with
  | nil => rfl
  | cons p ps ih =>
    unfold stripPrefixLoop
    rw [if_neg (h p (List.mem_cons_self p ps))]
    exact ih (fun q hq => h q (List.mem_cons_of_mem p hq))

/-- The fence-unwrapping step is inert on a string that is not a multi-line
fenced block. -/
theorem directUnwrapFence_of_not (y : List Char)
    (h : ¬(List.isPrefixOf ("```").data y = true ∧ List.isSuffixOf ("```").data y = true
        ∧ (splitNl y).length > 2)) :
    directUnwrapFence y = y := by
  unfold directUnwrapFence
  dsimp only
  split_ifs with h1 h2
  · exfalso
    apply h
    have h1' : List.isPrefixOf ("```").data y = true
        ∧ List.isSuffixOf ("```").data y = true := by simpa using h1
    exact ⟨h1'.1, h1'.2, h2⟩
  · rfl
  · rfl

/-- The quote-stripping step is inert on a string that is not quote-wrapped. -/
theorem directUnwrapQuotes_of_not (y : List Char)
    (h : ¬((y.head? = some '"' ∧ y.getLast? = some '"')
        ∨ (y.head? = some (Char.ofNat 39) ∧ y.getLast? = some (Char.ofNat 39)))) :
    directUnwrapQuotes y = y := by
  unfold directUnwrapQuotes
  split_ifs with hb
  · exfalso
    apply h
    simpa using hb
  · rfl

/-- The prefix-removal loop preserves strippedness. -/
theorem pyStrip_stripPrefixLoop (ps : List (List Char)) (c : List Char)
    (hc : pyStrip c = c) : pyStrip (stripPrefixLoop ps c) = stripPrefixLoop ps c := by
  induction ps generalizing c with
  | nil => simpa [stripPrefixLoop] using hc
  | cons p ps ih =>
    unfold stripPrefixLoop
    split
    · exact ih _ (pyStrip_idem _)
    · exact ih _ hc

/-- The fence-unwrapping step preserves strippedness. -/
theorem pyStrip_directUnwrapFence (c : List Char) (hc : pyStrip c = c) :
    pyStrip (directUnwrapFence c) = directUnwrapFence c := by
  unfold directUnwrapFence
  dsimp only
  split_ifs
  · exact pyStrip_idem _
  · exact hc
  · exact hc

/-- The quote-stripping step preserves strippedness. -/
theorem pyStrip_directUnwrapQuotes (c : List Char) (hc : pyStrip c = c) :
    pyStrip (directUnwrapQuotes c) = directUnwrapQuotes c := by
  unfold directUnwrapQuotes
  split_ifs
  · exact pyStrip_idem _
  · exact hc

/-- The direct clean function always returns a stripped string. -/
theorem pyStrip_directCleanResponse (x : List Char) :
    pyStrip (directCleanResponse x) = directCleanResponse x := by
  unfold directCleanResponse
  exact pyStrip_directUnwrapQuotes _
    (pyStrip_directUnwrapFence _ (pyStrip_stripPrefixLoop _ _ (pyStrip_idem x)))

/-- The direct clean function is inert on a stripped string on which all its
transformation steps are inert. -/
theorem directClean_fixed_eq (y : List Char) (hs : pyStrip y = y)
    (hfix : directCleanFixed y) : directCleanResponse y = y := by
  obtain ⟨h1, h2, h3⟩ := hfix
  unfold directCleanResponse
  rw [hs, stripPrefixLoop_of_no_match directPrefixes y h1,
    directUnwrapFence_of_not y h2, directUnwrapQuotes_of_not y h3]

/-- C5, amended: the Gemini-native `_clean_response` is idempotent for every
input; the Gemini-direct `_clean_response` is not idempotent in general
(quote stripping can expose a removable label, see the counterexample),
but a second application changes nothing whenever the cleaned result
carries no removable label, is not a multi-line fenced block, and is not
quote-wrapped. -/
theorem claim5_clean_idempotence :
    (∀ x, nativeCleanResponse (nativeCleanResponse x) = nativeCleanResponse x)
    ∧ (∀ x, directCleanFixed (directCleanResponse x) →
        directCleanResponse (directCleanResponse x) = directCleanResponse x) :=
  ⟨nativeClean_idem,
   fun x hfix => directClean_fixed_eq (directCleanResponse x)
     (pyStrip_directCleanResponse x) hfix⟩

/-- Witness for C5 at concrete responses. -/
theorem claim5_clean_idempotence_witness :
    nativeCleanResponse
        (nativeCleanResponse ("Loaded cached credentials.\nfeat: improve logging").data)
      = nativeCleanResponse ("Loaded cached credentials.\nfeat: improve logging").data
    ∧ directCleanFixed (directCleanResponse ("feat: improve logging").data)
    ∧ directCleanResponse (directCleanResponse ("feat: improve logging").data)
        = directCleanResponse ("feat: improve logging").data :=
  ⟨claim5_clean_idempotence.1 ("Loaded cached credentials.\nfeat: improve logging").data,
   by decide,
   claim5_clean_idempotence.2 ("feat: improve logging").data (by decide)⟩

/-- Counterexample to C5 as stated: on a quote-wrapped labelled message the
direct `_clean_response` is not idempotent — the first pass strips the
quotes, the second pass then strips the exposed label. -/
theorem claim5_counterexample :
    directCleanResponse
        (directCleanResponse ("\"Commit message: feat: improve logging\"").data)
      ≠ directCleanResponse ("\"Commit message: feat: improve logging\"").data := by decide

/-!
## Claim C9 (corrected)
-/

/-- C9, amended: `test_connection` of the Claude and Gemini-direct providers
re-raises authentication failures but converts every other failure into a
raised typed error — ProviderError for Claude, ProviderTimeoutError or
ProviderError for Gemini-direct (exit code 1 becoming AuthenticationError)
— never into a False return; the Gemini-native provider never raises at
all: every exception of its execution, AuthenticationError included, is
swallowed into a False return. -/
theorem claim9_test_connection_behaviour :
    (∀ m, claudeTestConnection (Except.error (PyExc.authenticationError m))
        = Except.error (PyExc.authenticationError m))
    ∧ (∀ e : PyExc, (∀ m, e ≠ PyExc.authenticationError m) →
        claudeTestConnection (Except.error e)
          = Except.error (PyExc.providerError "Claude Code CLI接続テストに失敗しました"))
    ∧ (∀ stdout stderr, directTestConnection
          (Except.error (PyExc.calledProcessError 1 stdout stderr))
        = Except.error (PyExc.authenticationError "Gemini CLI認証エラー"))
    ∧ (∀ e : PyExc, ∃ r, directTestConnection (Except.error e) = Except.error r)
    ∧ (∀ e : PyExc, nativeTestConnection (Except.error e) = Except.ok false) := by
  refine ⟨fun m => rfl, fun e he => ?_, fun stdout stderr => by simp [directTestConnection],
    fun e => ?_, fun e => rfl⟩
  · cases e <;> first | rfl | exact absurd rfl (he _)
  · cases e with
    | calledProcessError rc stdout stderr =>
      by_cases h : rc = 1 <;> simp [directTestConnection, h]
    | _ => exact ⟨_, rfl⟩

/-- Witness for C9: the claude branch applied at a timeout failure, which is
not an authentication error. -/
theorem claim9_test_connection_behaviour_witness :
    claudeTestConnection (Except.error PyExc.timeoutExpired)
      = Except.error (PyExc.providerError "Claude Code CLI接続テストに失敗しました") :=
  claim9_test_connection_behaviour.2.1 PyExc.timeoutExpired (fun m h => by cases h)

/-- Counterexample to C9 as stated: the Gemini-native `test_connection`
converts an AuthenticationError raised by its execution into a False
return, and the Claude provider raises ProviderError on a classifiable
timeout failure instead of returning a boolean. -/
theorem claim9_counterexample :
    nativeTestConnection (Except.error (PyExc.authenticationError "認証エラー"))
      = Except.ok false
    ∧ claudeTestConnection (Except.error (PyExc.providerTimeoutError "timeout"))
        = Except.error (PyExc.providerError "Claude Code CLI接続テストに失敗しました") := by
  exact ⟨rfl, rfl⟩

/-!
## Claim C1 (corrected)
-/

/-- C1, amended: the environments built by the Claude and Gemini-native
providers are subsets of the explicit allow-list (PATH, HOME, USER, locale
variables, provider API-key variables, NO_COLOR); the Gemini-direct
provider instead copies the entire caller environment (adding API-key
variables when configured), so variables outside the allow-list such as
SHELL are passed through to its child process. -/
theorem claim1_safe_env_subset_allowlist :
    (∀ (environ : List (String × String)) (kv : String × String),
        kv ∈ claudeCreateSafeEnvironment environ → kv.1 ∈ envAllowList)
    ∧ (∀ (environ : List (String × String)) (kv : String × String),
        kv ∈ nativeCreateSafeEnvironment environ → kv.1 ∈ envAllowList) := by
  have hclaude : ∀ v ∈ claudeSafeVars, v ∈ envAllowList := by decide
  have hnative : ∀ v ∈ nativeSafeVars, v ∈ envAllowList := by decide
  constructor
  · intro environ kv hkv
    unfold claudeCreateSafeEnvironment at hkv
    have h1 := (List.mem_filter.mp hkv).1
    rw [List.mem_filterMap] at h1
    obtain ⟨var, hvar, heq⟩ := h1
    rcases hmap : lookupEnv environ var with _ | v <;> rw [hmap] at heq
    · simp at heq
    · simp only [Option.map_some', Option.some.injEq] at heq
      rw [← heq]
      exact hclaude var hvar
  · intro environ kv hkv
    unfold nativeCreateSafeEnvironment at hkv
    dsimp only at hkv
    have hcore : ∀ p : String × String,
        p ∈ (nativeSafeVars.filterMap (fun var =>
            (lookupEnv environ var).map (fun v =>
              (var, if var = "NO_COLOR" then "1" else v)))).filter
          (fun q => q.1 ∉ ["SHELL", "PS1", "PS2"]) → p.1 ∈ envAllowList := by
      intro p hp
      have h1 := (List.mem_filter.mp hp).1
      rw [List.mem_filterMap] at h1
      obtain ⟨var, hvar, heq⟩ := h1
      rcases hmap : lookupEnv environ var with _ | v <;> rw [hmap] at heq
      · simp at heq
      · simp only [Option.map_some', Option.some.injEq] at heq
        rw [← heq]
        exact hnative var hvar
    split at hkv
    · exact hcore kv hkv
    · rcases List.mem_append.mp hkv with hkv | hkv
      · exact hcore kv hkv
      · simp only [List.mem_singleton] at hkv
        rw [hkv]
        decide

/-- Witness for C1: a concrete caller environment containing PATH and SHELL;
the PATH binding survives into the Claude and native safe environments and
its key is allow-listed. -/
theorem claim1_safe_env_subset_allowlist_witness :
    ("PATH", "/usr/bin") ∈ claudeCreateSafeEnvironment
        [("PATH", "/usr/bin"), ("SHELL", "/bin/bash")]
    ∧ "PATH" ∈ envAllowList
    ∧ ("PATH", "/usr/bin") ∈ nativeCreateSafeEnvironment
        [("PATH", "/usr/bin"), ("SHELL", "/bin/bash")]
    ∧ "PATH" ∈ envAllowList :=
  ⟨by decide,
   claim1_safe_env_subset_allowlist.1
     [("PATH", "/usr/bin"), ("SHELL", "/bin/bash")] ("PATH", "/usr/bin") (by decide),
   by decide,
   claim1_safe_env_subset_allowlist.2
     [("PATH", "/usr/bin"), ("SHELL", "/bin/bash")] ("PATH", "/usr/bin") (by decide)⟩

/-- Counterexample to C1 as stated: the Gemini-direct provider passes the
caller SHELL variable, which is outside the allow-list, through to its
child process environment. -/
theorem claim1_counterexample :
    ("SHELL", "/bin/bash")
        ∈ geminiDirectEnv [("SHELL", "/bin/bash"), ("PATH", "/usr/bin")] none
    ∧ "SHELL" ∉ envAllowList := by decide

/-!
## Claim C6 (corrected)
-/

/-- C6, amended: the Claude and Gemini-native binary verifications reject any
candidate whose symlink-resolved path contains a blocklisted segment
(acceptance implies the resolved path is free of /tmp/ and /var/tmp/),
even when the pre-resolution path does not contain it; the Gemini-direct
provider performs no such check — it accepts its wrapper script on
existence and execute permission alone and the PATH lookup result on an
unresolved basename check alone. -/
theorem claim6_resolved_path_blocklist :
    (∀ (isFile isExec : Bool) (resolve : List Char → List Char) (path : List Char),
        verify_binary_security isFile isExec resolve path = Except.ok () →
        isSub ("/tmp/").data (resolve path) = false
        ∧ isSub ("/var/tmp/").data (resolve path) = false)
    ∧ (∀ (resolve : List Char → List Char) (path : List Char),
        native_is_safe_binary_path resolve path = true →
        isSub ("/tmp/").data (resolve path) = false
        ∧ isSub ("/var/tmp/").data (resolve path) = false) := by
  constructor
  · intro isFile isExec resolve path h
    unfold verify_binary_security at h
    split at h
    · exact absurd h (by simp)
    · split at h
      · exact absurd h (by simp)
      · dsimp only at h
        split at h
        · exact absurd h (by simp)
        · split at h
          · exact absurd h (by simp)
          · rename_i hfind
            have hall := List.find?_eq_none.mp hfind
            constructor
            · have := hall ("/tmp/").data (by simp)
              simpa using this
            · have := hall ("/var/tmp/").data (by simp)
              simpa using this
  · intro resolve path h
    unfold native_is_safe_binary_path at h
    rw [Bool.not_eq_true'] at h
    rw [List.any_eq_false] at h
    constructor
    · have := h ("/tmp/").data (by simp)
      simpa using this
    · have := h ("/var/tmp/").data (by simp)
      simpa using this

/-- Witness for C6: a concrete accepted candidate (a regular executable at a
trusted location resolving to itself) whose resolved path is clean. -/
theorem claim6_resolved_path_blocklist_witness :
    verify_binary_security true true (fun _ => ("/usr/local/bin/claude").data)
        ("/usr/local/bin/claude").data = Except.ok ()
    ∧ isSub ("/tmp/").data
          ((fun _ => ("/usr/local/bin/claude").data) ("/usr/local/bin/claude").data) = false
    ∧ isSub ("/var/tmp/").data
          ((fun _ => ("/usr/local/bin/claude").data) ("/usr/local/bin/claude").data) = false :=
  ⟨by decide,
   (claim6_resolved_path_blocklist.1 true true
      (fun _ => ("/usr/local/bin/claude").data) ("/usr/local/bin/claude").data (by decide)).1,
   (claim6_resolved_path_blocklist.1 true true
      (fun _ => ("/usr/local/bin/claude").data) ("/usr/local/bin/claude").data (by decide)).2⟩

/-- Counterexample to C6 as stated: with no wrapper script present, the
Gemini-direct verification accepts a PATH lookup result under /tmp (a
non-symlink, so it is its own realpath) — its realpath contains the
blocklisted segment yet the candidate is accepted. -/
theorem claim6_counterexample :
    verify_gemini_binary false false false ("/root/bin/gemini-wrapper.sh").data
        (some ("/tmp/gemini").data)
      = Except.ok ("/tmp/gemini").data
    ∧ isSub ("/tmp/").data ("/tmp/gemini").data = true := by decide

/-!
## Claim C8 (confirmed)
-/

/-- C8: prompts whose UTF-8 size exceeds 8192 bytes are delivered on stdin by
both Gemini providers — the native argv carries only the path, the
`--prompt` flag and the stdin placeholder `-`, the direct argv only the
path and model flags, so the prompt text is not an argv element (the
degenerate collisions prompt = path and prompt = model are excluded);
prompts at or below 8192 bytes ride in argv with no stdin payload. -/
theorem claim8_prompt_transport (path model prompt : List Char) :
    (utf8Len prompt > 8192 →
      nativeBuildCommand path prompt = ([path, ("--prompt").data, ("-").data], some prompt)
      ∧ directBuildCommand path model prompt
          = (path :: (if model ≠ ("gemini-1.5-pro").data then [("-m").data, model] else []),
             some prompt)
      ∧ (prompt ≠ path → prompt ∉ (nativeBuildCommand path prompt).1)
      ∧ (prompt ≠ path → prompt ≠ model → prompt ∉ (directBuildCommand path model prompt).1))
    ∧ (utf8Len prompt ≤ 8192 →
      prompt ∈ (nativeBuildCommand path prompt).1
      ∧ (nativeBuildCommand path prompt).2 = none
      ∧ prompt ∈ (directBuildCommand path model prompt).1
      ∧ (directBuildCommand path model prompt).2 = none) := by
  constructor
  · intro h
    have hne1 : prompt ≠ ("--prompt").data := by
      intro he
      rw [he] at h
      exact absurd h (by decide)
    have hne2 : prompt ≠ ("-").data := by
      intro he
      rw [he] at h
      exact absurd h (by decide)
    have hnat : nativeBuildCommand path prompt
        = ([path, ("--prompt").data, ("-").data], some prompt) := by
      unfold nativeBuildCommand
      rw [if_pos h]
    have hdir : directBuildCommand path model prompt
        = (path :: (if model ≠ ("gemini-1.5-pro").data then [("-m").data, model] else []),
           some prompt) := by
      unfold directBuildCommand
      rw [if_pos h]
    refine ⟨hnat, hdir, fun hp => ?_, fun hp hm => ?_⟩
    · rw [hnat]
      dsimp only
      intro hmem
      rcases List.mem_cons.mp hmem with h1 | hmem
      · exact hp h1
      rcases List.mem_cons.mp hmem with h1 | hmem
      · exact hne1 h1
      rcases List.mem_cons.mp hmem with h1 | hmem
      · exact hne2 h1
      · exact absurd hmem (List.not_mem_nil prompt)
    · rw [hdir]
      have hneM : prompt ≠ ("-m").data := by
        intro he
        rw [he] at h
        exact absurd h (by decide)
      dsimp only
      intro hmem
      rcases List.mem_cons.mp hmem with h1 | hmem
      · exact hp h1
      split at hmem
      · rcases List.mem_cons.mp hmem with h1 | hmem
        · exact hneM h1
        rcases List.mem_cons.mp hmem with h1 | hmem
        · exact hm h1
        · exact absurd hmem (List.not_mem_nil prompt)
      · exact absurd hmem (List.not_mem_nil prompt)
  · intro h
    have hns : ¬ utf8Len prompt > 8192 := not_lt.mpr h
    constructor
    · unfold nativeBuildCommand
      rw [if_neg hns]
      simp
    refine ⟨?_, ?_, ?_⟩
    · unfold nativeBuildCommand
      rw [if_neg hns]
    · unfold directBuildCommand
      rw [if_neg hns]
      simp
    · unfold directBuildCommand
      rw [if_neg hns]

/-- Witness for C8 at a concrete over-threshold prompt and a small prompt. -/
theorem claim8_prompt_transport_witness :
    utf8Len bigPrompt > 8192
    ∧ (nativeBuildCommand ("/usr/bin/gemini").data bigPrompt).2 = some bigPrompt
    ∧ bigPrompt ∉ (nativeBuildCommand ("/usr/bin/gemini").data bigPrompt).1
    ∧ bigPrompt ∉ (directBuildCommand ("/usr/bin/gemini").data ("gemini-1.5-pro").data bigPrompt).1
    ∧ utf8Len ("hi").data ≤ 8192
    ∧ ("hi").data ∈ (nativeBuildCommand ("/usr/bin/gemini").data ("hi").data).1 :=
  have hbig : utf8Len bigPrompt > 8192 := by
    rw [bigPrompt, utf8Len_replicate _ _ (by decide)]
    omega
  have hne : bigPrompt ≠ ("/usr/bin/gemini").data := by
    intro h
    have hlen := congrArg List.length h
    rw [bigPrompt, List.length_replicate] at hlen
    exact absurd hlen (by decide)
  have hnem : bigPrompt ≠ ("gemini-1.5-pro").data := by
    intro h
    have hlen := congrArg List.length h
    rw [bigPrompt, List.length_replicate] at hlen
    exact absurd hlen (by decide)
  have hmain := claim8_prompt_transport ("/usr/bin/gemini").data ("gemini-1.5-pro").data bigPrompt
  ⟨hbig,
   by rw [(hmain.1 hbig).1],
   (hmain.1 hbig).2.2.1 hne,
   (hmain.1 hbig).2.2.2 hne hnem,
   by decide,
   ((claim8_prompt_transport ("/usr/bin/gemini").data ("gemini-1.5-pro").data ("hi").data).2
      (by decide)).1⟩

end LazygitLLM
